import Mathlib

/-!
Verification of the asset-to-device temperature reconciliation engine
(`sync_asset_temperature_to_devices.py`).

The Python source is shallowly embedded: pure helpers become Lean
functions; the per-device decision block of `main` (lines 709-862)
becomes `processDevice`; the asset/device loop with the device-count
cap (lines 653-694) becomes `runAssets` / `runMain`.  Temperatures are
modelled as rationals (Python numbers for which `x * 2` is exact and
`int()` is truncation toward zero); absent attributes are `Option`.
-/

/-- Python `int(temp * 2)` on a numeric temperature `q`: doubling is
exact and `int()` truncates toward zero, so the result is the
truncation toward zero of `2 * q`, which for `q = num / den` with
`den > 0` is `(2 * num).tdiv den` (`Int.tdiv` truncates toward zero). -/
def pyTruncTwice (q : ℚ) : ℤ := (2 * q.num).tdiv (q.den : ℤ)

/-- Uppercase hexadecimal digit for a value below 16 (as produced by
Python's `'X'` format code). -/
def hexDigitChar (n : ℕ) : Char :=
  if n < 10 then Char.ofNat (48 + n) else Char.ofNat (55 + n)

/-- Fuel-driven big-endian hexadecimal digit expansion of a natural
number; fuel `n + 1` always suffices. -/
def natToHexAux : ℕ → ℕ → List Char
  | 0, _ => []
  | fuel + 1, n =>
    if n < 16 then [hexDigitChar n]
    else natToHexAux fuel (n / 16) ++ [hexDigitChar (n % 16)]

/-- Uppercase hexadecimal digits of a natural number, no padding
(Python `format(n, 'X')` for `n ≥ 0`). -/
def natToHexL (n : ℕ) : List Char := natToHexAux (n + 1) n

/-- Python `format(i, '02X')`: uppercase hex, zero-padded to a minimum
total width of 2 where a leading minus sign counts toward the width. -/
def format02XL (i : ℤ) : List Char :=
  if i < 0 then
    '-' :: (List.replicate (1 - (natToHexL i.natAbs).length) '0' ++ natToHexL i.natAbs)
  else
    List.replicate (2 - (natToHexL i.natAbs).length) '0' ++ natToHexL i.natAbs

/-- String form of `format02XL`. -/
def format02X (i : ℤ) : String := ⟨format02XL i⟩

/-- Source `temperature_to_hex_payload` (lines 405-432) on a numeric
temperature: prefix `3E` (min) or `40` (max) followed by
`format(int(temp * 2), '02X')`. -/
def tempHexVal (q : ℚ) (is_min : Bool) : String :=
  (if is_min then "3E" else "40") ++ format02X (pyTruncTwice q)

/-- Source `temperature_to_hex_payload` including the `None` guard:
`None` input yields `None`; numeric input never raises, so the
`except` branch is unreachable in the numeric model. -/
def temperature_to_hex_payload (t : Option ℚ) (is_min : Bool) : Option String :=
  t.map (fun q => tempHexVal q is_min)

/-- Source `get_query_payload` (lines 435-445): `BD` for min, `BF` for max. -/
def get_query_payload (is_min : Bool) : String :=
  if is_min then "BD" else "BF"

/-- Source `combine_query_payloads` (lines 448-455): the constant `BDBF`. -/
def combine_query_payloads : String := "BDBF"

/-- Source `combine_temperature_payloads` (lines 458-475): concatenation
of the two encoded setpoints, `None` if either payload is missing. -/
def combine_temperature_payloads (tmin tmax : Option ℚ) : Option String :=
  match temperature_to_hex_payload tmin true, temperature_to_hex_payload tmax false with
  | some a, some b => some (a ++ b)
  | _, _ => none

/-- Characters removed by Python `str.strip()` (ASCII whitespace). -/
def isPySpace (c : Char) : Bool :=
  [' ', '\t', '\n', '\r', '\x0b', '\x0c'].contains c

/-- Python `str.strip()` on a character list: drop leading and trailing
whitespace. -/
def pyStrip (l : List Char) : List Char :=
  ((l.dropWhile isPySpace).reverse.dropWhile isPySpace).reverse

/-- One left-to-right, non-overlapping deletion pass of `str.replace(pat, '')`,
fuel-driven; fuel `s.length` suffices for a non-empty pattern. -/
def replaceAllAux : ℕ → List Char → List Char → List Char
  | 0, _, _ => []
  | fuel + 1, s, pat =>
    match s with
    | [] => []
    | c :: rest =>
      if pat.isPrefixOf s then replaceAllAux fuel (s.drop pat.length) pat
      else c :: replaceAllAux fuel rest pat

/-- Python `s.replace(pat, '')` for a non-empty pattern. -/
def pyReplaceAll (s pat : List Char) : List Char := replaceAllAux s.length s pat

/-- Python `str.upper()` restricted to ASCII (all inputs of interest). -/
def upperL (l : List Char) : List Char := l.map Char.toUpper

/-- The characters accepted by the validity check of `normalize_deveui`. -/
def hexUpperChars : List Char :=
  ['0', '1', '2', '3', '4', '5', '6', '7', '8', '9', 'A', 'B', 'C', 'D', 'E', 'F']

/-- Membership in `'0123456789ABCDEF'`. -/
def isHexUpper (c : Char) : Bool := hexUpperChars.contains c

/-- Body of `normalize_deveui` after the falsy guard: strip,
uppercase, four `replace` deletions of the EUI markers, deletion of
spaces/hyphens/colons, then the 16-uppercase-hex validity check. -/
def normPipeline (l : List Char) : Option String :=
  let l0 := upperL (pyStrip l)
  let l1 := pyReplaceAll l0 "EUI-".data
  let l2 := pyReplaceAll l1 "eui-".data
  let l3 := pyReplaceAll l2 "EUI_".data
  let l4 := pyReplaceAll l3 "eui_".data
  let l5 := pyReplaceAll l4 [' ']
  let l6 := pyReplaceAll l5 ['-']
  let l7 := pyReplaceAll l6 [':']
  if l7.length = 16 ∧ l7.all isHexUpper then some ⟨l7⟩ else none

/-- Source `normalize_deveui` (lines 324-347): `None`/empty-falsy
guard followed by the normalization pipeline. -/
def normalize_deveui (s : String) : Option String :=
  if s = "" then none else normPipeline s.data

/-- A device record as far as `extract_deveui` (lines 350-402) reads it:
the declared server attributes (the external lookup of step 1, `none`
when that collaborator call fails or returns a non-200 status), the
name, the label, and the `additionalInfo` map (an association list
with distinct keys, looked up by exact key). -/
structure Device where
  attrs : Option (List (String × String))
  name : String
  label : String
  additionalInfo : List (String × String)

/-- Step 1 of `extract_deveui`: scan the declared attributes in order,
and for each whose lowercased key is `deveui` or `eui` try
`normalize_deveui` on its value, returning the first success. -/
def firstAttrHit : List (String × String) → Option String
  | [] => none
  | (k, v) :: rest =>
    if k.toLower = "deveui" ∨ k.toLower = "eui" then
      match normalize_deveui v with
      | some r => some r
      | none => firstAttrHit rest
    else firstAttrHit rest

/-- The six `additionalInfo` keys probed by step 4 of `extract_deveui`
(line 396), in source order. -/
def sixInfoKeys : List String :=
  ["devEUI", "devEui", "DevEUI", "DevEui", "deveui", "eui"]

/-- Step 4 of `extract_deveui`: for each key in order, if present in
the map try `normalize_deveui` on its value, returning the first
success. -/
def tryInfoKeys (info : List (String × String)) : List String → Option String
  | [] => none
  | k :: ks =>
    match info.lookup k with
    | some v =>
      match normalize_deveui v with
      | some r => some r
      | none => tryInfoKeys info ks
    | none => tryInfoKeys info ks

/-- Python `s.strip()` as a `String` operation. -/
def strippedStr (s : String) : String := ⟨pyStrip s.data⟩

/-- Source `extract_deveui` (lines 350-402): declared attributes, then
the stripped device name (if non-empty), then the stripped label (if
non-empty), then the six `additionalInfo` keys; first successful
normalization wins, `none` if every candidate fails. -/
def extract_deveui (d : Device) : Option String :=
  match (match d.attrs with | some l => firstAttrHit l | none => none) with
  | some r => some r
  | none =>
    match (if strippedStr d.name ≠ "" then normalize_deveui (strippedStr d.name) else none) with
    | some r => some r
    | none =>
      match (if strippedStr d.label ≠ "" then normalize_deveui (strippedStr d.label) else none) with
      | some r => some r
      | none => tryInfoKeys d.additionalInfo sixInfoKeys

/-- Whether a declared-attribute key matches case-insensitively one of
`deveui`, `eui` (step 1 of `extract_deveui`). -/
def matchesEuiKey (k : String) : Bool :=
  k.toLower == "deveui" || k.toLower == "eui"

/-- The flat candidate list of the extraction order: matching declared
attribute values, then name, then label, then the values of the six
`additionalInfo` keys that are present. -/
def extractCandidates (d : Device) : List String :=
  (match d.attrs with
   | some l => (l.filter (fun kv => matchesEuiKey kv.1)).map Prod.snd
   | none => [])
  ++ [d.name, d.label]
  ++ sixInfoKeys.filterMap (fun k => d.additionalInfo.lookup k)

/-- First candidate in a list on which `normalize_deveui` succeeds. -/
def firstNormalized : List String → Option String
  | [] => none
  | c :: rest =>
    match normalize_deveui c with
    | some r => some r
    | none => firstNormalized rest

/-- The response the downlink transport produces for one send attempt:
an HTTP status code, or a transport-level error (the source's
`requests.exceptions.RequestException`). -/
inductive TransportResp where
  | status (code : ℕ)
  | transportError
deriving DecidableEq

/-- Source `send_downlink_to_agility` (lines 478-529).  `urlConfigured`
models whether `AGILITY_URL` is set (checked first; `main` exits
before any processing when it is not).  In dry-run mode the transport
is never consulted and the call reports success; live mode reports
success exactly for the status codes 200, 201 and 202, and failure for
any other status or a transport error.  One attempt, no retry. -/
def send_downlink_to_agility (urlConfigured : Bool) (deveui : String) (fport : ℤ)
    (payload_hex : String) (dry_run : Bool) (resp : TransportResp) : Bool :=
  if !urlConfigured then false
  else if dry_run then true
  else
    match resp with
    | .status c => decide (c ∈ [200, 201, 202])
    | .transportError => false

/-- The run-statistics counters of `main` (lines 632-645). -/
structure Stats where
  assets_processed : ℕ := 0
  devices_processed : ℕ := 0
  min_temp_sent : ℕ := 0
  max_temp_sent : ℕ := 0
  combined_sent : ℕ := 0
  min_query_sent : ℕ := 0
  max_query_sent : ℕ := 0
  skipped_no_deveui : ℕ := 0
  skipped_no_asset_temp : ℕ := 0
  skipped_empty_min_temp : ℕ := 0
  skipped_empty_max_temp : ℕ := 0
  errors : ℕ := 0
deriving DecidableEq

/-- Fieldwise sum of two counter sets. -/
def Stats.add (a b : Stats) : Stats where
  assets_processed := a.assets_processed + b.assets_processed
  devices_processed := a.devices_processed + b.devices_processed
  min_temp_sent := a.min_temp_sent + b.min_temp_sent
  max_temp_sent := a.max_temp_sent + b.max_temp_sent
  combined_sent := a.combined_sent + b.combined_sent
  min_query_sent := a.min_query_sent + b.min_query_sent
  max_query_sent := a.max_query_sent + b.max_query_sent
  skipped_no_deveui := a.skipped_no_deveui + b.skipped_no_deveui
  skipped_no_asset_temp := a.skipped_no_asset_temp + b.skipped_no_asset_temp
  skipped_empty_min_temp := a.skipped_empty_min_temp + b.skipped_empty_min_temp
  skipped_empty_max_temp := a.skipped_empty_max_temp + b.skipped_empty_max_temp
  errors := a.errors + b.errors

/-- Lines 710-713 of `main`: a device setpoint equal to the empty
string or to `0` is reset to `None`.  In this numeric model the
empty-string case is the absent case; the zero sentinel is explicit. -/
def normSentinel : Option ℚ → Option ℚ
  | some q => if q = 0 then none else some q
  | none => none

/-- Lines 729-730 of `main`: a field must be acted on when the desired
value is present and the (normalized) known value is absent or differs
from it. -/
def needsField (desired known : Option ℚ) : Prop :=
  desired ≠ none ∧ (known = none ∨ known ≠ desired)

instance (desired known : Option ℚ) : Decidable (needsField desired known) := by
  unfold needsField; infer_instance

/-- Single-field dispatch for the min field (lines 780-798 and 823-841
of `main`, two identical blocks): a query `BD` when the normalized
known value is absent, otherwise a value-set; the per-field counter is
incremented before the transmission outcome is known, and a failure
additionally increments `errors`.  Returns the dispatched frames and
the counter delta. -/
def sendMinField (amin kmin : Option ℚ) (send : String → Bool) : List String × Stats :=
  if kmin = none then
    let p := get_query_payload true
    if send p then ([p], { min_query_sent := 1 })
    else ([p], { min_query_sent := 1, errors := 1 })
  else
    match temperature_to_hex_payload amin true with
    | some p =>
      if send p then ([p], { min_temp_sent := 1 })
      else ([p], { min_temp_sent := 1, errors := 1 })
    | none => ([], { min_temp_sent := 1 })

/-- Single-field dispatch for the max field (lines 801-819 and 844-862
of `main`), symmetric to `sendMinField` with query `BF`. -/
def sendMaxField (amax kmax : Option ℚ) (send : String → Bool) : List String × Stats :=
  if kmax = none then
    let p := get_query_payload false
    if send p then ([p], { max_query_sent := 1 })
    else ([p], { max_query_sent := 1, errors := 1 })
  else
    match temperature_to_hex_payload amax false with
    | some p =>
      if send p then ([p], { max_temp_sent := 1 })
      else ([p], { max_temp_sent := 1, errors := 1 })
    | none => ([], { max_temp_sent := 1 })

/-- The per-device decision block of `main` (lines 709-862), entered
after a DevEUI was extracted: sentinel normalization of the known
setpoints, empty-desired bookkeeping, then the combined-query /
combined-set / per-field dispatch branches.  `send` gives the
transmission outcome for each dispatched frame.  Returns the frames
dispatched for this device, in order, and the counter delta. -/
def processDevice (amin amax kminRaw kmaxRaw : Option ℚ) (send : String → Bool) :
    List String × Stats :=
  let kmin := normSentinel kminRaw
  let kmax := normSentinel kmaxRaw
  let base : Stats :=
    { skipped_empty_min_temp := if amin = none then 1 else 0
      skipped_empty_max_temp := if amax = none then 1 else 0 }
  if amin = none ∧ amax = none then ([], base)
  else if needsField amin kmin ∧ needsField amax kmax then
    if kmin = none ∧ kmax = none then
      let frame := combine_query_payloads
      if send frame then
        ([frame], base.add { min_query_sent := 1, max_query_sent := 1, combined_sent := 1 })
      else ([frame], base.add { errors := 1 })
    else if kmin ≠ none ∧ kmax ≠ none then
      match combine_temperature_payloads amin amax with
      | some p =>
        let frame := p ++ combine_query_payloads
        if send frame then
          ([frame], base.add { min_temp_sent := 1, max_temp_sent := 1, combined_sent := 1 })
        else ([frame], base.add { errors := 1 })
      | none => ([], base)
    else
      let m := sendMinField amin kmin send
      let M := sendMaxField amax kmax send
      (m.1 ++ M.1, base.add (m.2.add M.2))
  else
    let m := if needsField amin kmin then sendMinField amin kmin send else ([], {})
    let M := if needsField amax kmax then sendMaxField amax kmax send else ([], {})
    (m.1 ++ M.1, base.add (m.2.add M.2))

/-- One device as the aggregator loop sees it: the DevEUI extraction
result and the two client attributes (`manu_temp_min`,
`manu_temp_max`) fetched for it. -/
structure DevRec where
  deveui : Option String
  kmin : Option ℚ
  kmax : Option ℚ

/-- One asset as the aggregator loop sees it: its two server
attributes and its related devices (already filtered to supported
types by the collaborator). -/
structure AssetRec where
  minTemp : Option ℚ
  maxTemp : Option ℚ
  devices : List DevRec

/-- The mutable state of the aggregator loop (lines 632-694):
`devices_processed_count`, the `limit_reached` flag, the statistics
and the frames dispatched so far. -/
structure RunState where
  count : ℕ
  limitReached : Bool
  stats : Stats
  frames : List String

/-- Line 685 of `main`: `if args.limit and devices_processed_count >=
args.limit`.  A limit of `None` — and, by Python falsiness, a limit of
`0` — never triggers. -/
def limitHit (limit : Option ℤ) (count : ℕ) : Bool :=
  match limit with
  | none => false
  | some n => decide (n ≠ 0) && decide ((count : ℤ) ≥ n)

/-- The inner device loop of `main` (lines 683-862) for one asset:
check the cap, count the device, skip it when no DevEUI was extracted,
otherwise run the decision block. -/
def runDevices (limit : Option ℤ) (send : String → Bool) (amin amax : Option ℚ) :
    RunState → List DevRec → RunState
  | st, [] => st
  | st, d :: rest =>
    if limitHit limit st.count then { st with limitReached := true }
    else
      let st1 : RunState :=
        { st with
          count := st.count + 1
          stats := st.stats.add { devices_processed := 1 } }
      let st2 : RunState :=
        match d.deveui with
        | none => { st1 with stats := st1.stats.add { skipped_no_deveui := 1 } }
        | some _ =>
          let r := processDevice amin amax d.kmin d.kmax send
          { st1 with frames := st1.frames ++ r.1, stats := st1.stats.add r.2 }
      runDevices limit send amin amax st2 rest

/-- The outer asset loop of `main` (lines 656-862): stop when the cap
was reached, skip assets with neither desired setpoint, otherwise
iterate the asset's devices. -/
def runAssets (limit : Option ℤ) (send : String → Bool) :
    RunState → List AssetRec → RunState
  | st, [] => st
  | st, a :: rest =>
    if st.limitReached then st
    else if a.minTemp = none ∧ a.maxTemp = none then
      runAssets limit send
        { st with stats := st.stats.add { skipped_no_asset_temp := 1 } } rest
    else
      let st1 : RunState := { st with stats := st.stats.add { assets_processed := 1 } }
      runAssets limit send (runDevices limit send a.minTemp a.maxTemp st1 a.devices) rest

/-- A whole reconciliation run over the fetched assets. -/
def runMain (assets : List AssetRec) (limit : Option ℤ) (send : String → Bool) : RunState :=
  runAssets limit send ⟨0, false, {}, []⟩ assets

/-- Devices reachable by the loop: those under assets with at least one
desired setpoint. -/
def availableDevices : List AssetRec → ℕ
  | [] => 0
  | a :: rest =>
    (if a.minTemp = none ∧ a.maxTemp = none then 0 else a.devices.length)
      + availableDevices rest

example : normalize_deveui "EUI-aabbccdd11223344" = some "AABBCCDD11223344" := by decide
example : normalize_deveui "short123" = none := by decide
example : normalize_deveui "AAEUI-BBCCDD11223344" = some "AABBCCDD11223344" := by decide
example : tempHexVal 20 true = "3E28" := by decide
example : tempHexVal 25 false = "4032" := by decide
example : tempHexVal 128 true = "3E100" := by decide
example : format02X (-2) = "-2" := by decide
example : format02X 5 = "05" := by decide
example : processDevice (some 20) (some 25) none none (fun _ => true) =
    (["BDBF"], { min_query_sent := 1, max_query_sent := 1, combined_sent := 1 }) := by decide
example : (processDevice (some 20) (some 25) none (some 24) (fun _ => true)).1 =
    ["BD", "4032"] := by decide
example : (processDevice (some 20) (some 25) (some 18) (some 24) (fun _ => true)).1 =
    ["3E284032BDBF"] := by decide
example : (processDevice (some 0) none (some 0) none (fun _ => true)).1 = ["BD"] := by decide
example : (runMain [⟨some 20, some 25, [⟨some "AABBCCDD11223344", none, none⟩]⟩]
    (some 0) (fun _ => true)).stats.devices_processed = 1 := by decide

lemma normSentinel_none : normSentinel none = none := rfl

lemma normSentinel_some_of_ne (q : ℚ) (h : q ≠ 0) : normSentinel (some q) = some q := by
  simp [normSentinel, h]

lemma needsField_some_none (d : ℚ) : needsField (some d) none := by
  simp [needsField]

lemma needsField_some_some_iff (d k : ℚ) : needsField (some d) (some k) ↔ k ≠ d := by
  simp [needsField]

lemma not_needsField_none (k : Option ℚ) : ¬ needsField none k := by
  simp [needsField]

/-- C1: with both desired setpoints present and both known setpoints
unknown, the decision engine dispatches the single combined-query
frame `BDBF`, and a successful transmission increments exactly the
min-query, max-query and combined counters, leaving both set-counters
(and every other counter) at zero. -/
theorem combinedQuery_single_frame (dm dM : ℚ) (send : String → Bool)
    (h : send "BDBF" = true) :
    processDevice (some dm) (some dM) none none send =
      (["BDBF"], { min_query_sent := 1, max_query_sent := 1, combined_sent := 1 }) := by
  simp [processDevice, normSentinel, needsField, combine_query_payloads, h, Stats.add]

/-- Witness for `combinedQuery_single_frame` at the spec's example
`desiredMin = 20`, `desiredMax = 25` with an always-successful
transport. -/
theorem combinedQuery_single_frame_witness :
    processDevice (some 20) (some 25) none none (fun _ => true) =
      (["BDBF"], { min_query_sent := 1, max_query_sent := 1, combined_sent := 1 }) :=
  combinedQuery_single_frame 20 25 (fun _ => true) rfl

/-- C2: with both desired setpoints present and both known setpoints
present (non-zero) but different from the desired ones, the decision
engine dispatches exactly one frame: the combined setpoint encoding
followed by the combined-query constant `BDBF`. -/
theorem combinedSet_single_frame (dm dM km kM : ℚ) (send : String → Bool)
    (hkm0 : km ≠ 0) (hkM0 : kM ≠ 0) (hm : km ≠ dm) (hM : kM ≠ dM) :
    (processDevice (some dm) (some dM) (some km) (some kM) send).1 =
      [tempHexVal dm true ++ tempHexVal dM false ++ "BDBF"] := by
  simp [processDevice, normSentinel_some_of_ne, hkm0, hkM0, needsField, hm, hM,
    combine_temperature_payloads, temperature_to_hex_payload, combine_query_payloads,
    Stats.add]
  split <;> simp [String.append_assoc]

/-- Witness for `combinedSet_single_frame` at the spec's example
`knownMin = 18`, `knownMax = 24`, `desiredMin = 20`, `desiredMax = 25`,
yielding the frame `3E284032BDBF`. -/
theorem combinedSet_single_frame_witness :
    (processDevice (some 20) (some 25) (some 18) (some 24) (fun _ => true)).1 =
      ["3E284032BDBF"] := by
  have h := combinedSet_single_frame 20 25 18 24 (fun _ => true)
    (by norm_num) (by norm_num) (by norm_num) (by norm_num)
  rw [h]; decide

lemma sendMinField_query_frames (amin : Option ℚ) (send : String → Bool) :
    (sendMinField amin none send).1 = ["BD"] := by
  simp [sendMinField, get_query_payload]
  split <;> rfl

lemma sendMinField_set_frames (dm k : ℚ) (send : String → Bool) :
    (sendMinField (some dm) (some k) send).1 = [tempHexVal dm true] := by
  simp [sendMinField, temperature_to_hex_payload]
  split <;> rfl

lemma sendMaxField_query_frames (amax : Option ℚ) (send : String → Bool) :
    (sendMaxField amax none send).1 = ["BF"] := by
  simp [sendMaxField, get_query_payload]
  split <;> rfl

lemma sendMaxField_set_frames (dM k : ℚ) (send : String → Bool) :
    (sendMaxField (some dM) (some k) send).1 = [tempHexVal dM false] := by
  simp [sendMaxField, temperature_to_hex_payload]
  split <;> rfl

lemma sendMinField_query_stats (amin : Option ℚ) (send : String → Bool) :
    (sendMinField amin none send).2 =
      if send "BD" = true then { min_query_sent := 1 }
      else { min_query_sent := 1, errors := 1 } := by
  simp [sendMinField, get_query_payload]
  split <;> simp_all

lemma sendMinField_set_stats (dm k : ℚ) (send : String → Bool) :
    (sendMinField (some dm) (some k) send).2 =
      if send (tempHexVal dm true) = true then { min_temp_sent := 1 }
      else { min_temp_sent := 1, errors := 1 } := by
  simp [sendMinField, temperature_to_hex_payload]
  split <;> simp_all

lemma sendMaxField_query_stats (amax : Option ℚ) (send : String → Bool) :
    (sendMaxField amax none send).2 =
      if send "BF" = true then { max_query_sent := 1 }
      else { max_query_sent := 1, errors := 1 } := by
  simp [sendMaxField, get_query_payload]
  split <;> simp_all

lemma sendMaxField_set_stats (dM k : ℚ) (send : String → Bool) :
    (sendMaxField (some dM) (some k) send).2 =
      if send (tempHexVal dM false) = true then { max_temp_sent := 1 }
      else { max_temp_sent := 1, errors := 1 } := by
  simp [sendMaxField, temperature_to_hex_payload]
  split <;> simp_all

/-- C3: in the mixed case (both fields need a change, exactly one
known setpoint unknown) the decision engine dispatches two separate
single-field frames, never a combined one: the query opcode for the
unknown field and a single-field value-set for the other, min field
first.  Both orientations are stated. -/
theorem mixed_two_frames (dm dM k : ℚ) (send : String → Bool) (hk0 : k ≠ 0) :
    (k ≠ dM →
      (processDevice (some dm) (some dM) none (some k) send).1 =
        ["BD", tempHexVal dM false]) ∧
    (k ≠ dm →
      (processDevice (some dm) (some dM) (some k) none send).1 =
        [tempHexVal dm true, "BF"]) := by
  have h1 := normSentinel_some_of_ne k hk0
  constructor <;> intro hne <;>
    simp [processDevice, normSentinel_none, h1, needsField, hne,
      sendMinField_query_frames, sendMinField_set_frames,
      sendMaxField_query_frames, sendMaxField_set_frames]

/-- Witness for `mixed_two_frames` at the spec's example
`knownMin = None`, `knownMax = 24`, `desiredMin = 20`,
`desiredMax = 25`: the two frames `BD` and `4032`. -/
theorem mixed_two_frames_witness :
    (processDevice (some 20) (some 25) none (some 24) (fun _ => true)).1 =
      ["BD", "4032"] := by
  have h := (mixed_two_frames 20 25 24 (fun _ => true) (by norm_num)).1 (by norm_num)
  rw [h]; decide

/-- C4 (amended): a second reconciliation run in which, for every
field with a present desired value, the known value equals that
desired value and the desired value is not the zero sentinel,
dispatches no frame at all. -/
theorem second_run_no_dispatch (dmin dmax kmin kmax : Option ℚ) (send : String → Bool)
    (hmin : ∀ v : ℚ, dmin = some v → v ≠ 0 ∧ kmin = some v)
    (hmax : ∀ v : ℚ, dmax = some v → v ≠ 0 ∧ kmax = some v) :
    (processDevice dmin dmax kmin kmax send).1 = [] := by
  match dmin, dmax with
  | none, none => simp [processDevice]
  | none, some vM =>
    obtain ⟨hM0, hkM⟩ := hmax vM rfl
    subst hkM
    simp [processDevice, normSentinel_some_of_ne, hM0, needsField]
  | some vm, none =>
    obtain ⟨hm0, hkm⟩ := hmin vm rfl
    subst hkm
    simp [processDevice, normSentinel_some_of_ne, hm0, needsField]
  | some vm, some vM =>
    obtain ⟨hm0, hkm⟩ := hmin vm rfl
    obtain ⟨hM0, hkM⟩ := hmax vM rfl
    subst hkm; subst hkM
    simp [processDevice, normSentinel_some_of_ne, hm0, hM0, needsField]

/-- Witness for `second_run_no_dispatch`: known values equal to the
non-zero desired values 20 and 25 produce no frame. -/
theorem second_run_no_dispatch_witness :
    (processDevice (some 20) (some 25) (some 20) (some 25) (fun _ => true)).1 = [] :=
  second_run_no_dispatch (some 20) (some 25) (some 20) (some 25) (fun _ => true)
    (fun v hv => by cases hv; exact ⟨by norm_num, rfl⟩)
    (fun v hv => by cases hv; exact ⟨by norm_num, rfl⟩)

/-- C10: in the single-field dispatch paths (the mixed sub-case and
the only-one-field-needed case) the per-field counters are incremented
before the transmission outcome is known, so under a failing transport
both the field counter and the error counter grow; in the two combined
branches the field counters and the combined counter are incremented
only on success, so a failing transport leaves them at zero with one
error, and a succeeding transport sets them with zero errors. -/
theorem counter_increment_timing (dm dM km kM : ℚ) (hkm0 : km ≠ 0) (hkM0 : kM ≠ 0)
    (hm : km ≠ dm) (hM : kM ≠ dM) :
    ((processDevice (some dm) (some dM) none (some kM) (fun _ => false)).2.min_query_sent = 1 ∧
      (processDevice (some dm) (some dM) none (some kM) (fun _ => false)).2.max_temp_sent = 1 ∧
      (processDevice (some dm) (some dM) none (some kM) (fun _ => false)).2.errors = 2) ∧
    ((processDevice (some dm) none (some km) none (fun _ => false)).2.min_temp_sent = 1 ∧
      (processDevice (some dm) none (some km) none (fun _ => false)).2.errors = 1) ∧
    ((processDevice (some dm) (some dM) none none (fun _ => false)).2 = { errors := 1 }) ∧
    ((processDevice (some dm) (some dM) (some km) (some kM) (fun _ => false)).2 =
      { errors := 1 }) ∧
    ((processDevice (some dm) (some dM) none none (fun _ => true)).2 =
      { min_query_sent := 1, max_query_sent := 1, combined_sent := 1 }) := by
  have h1 := normSentinel_some_of_ne km hkm0
  have h2 := normSentinel_some_of_ne kM hkM0
  refine ⟨?_, ?_, ?_, ?_, ?_⟩ <;>
    simp [processDevice, normSentinel_none, h1, h2, needsField, hm, hM,
      sendMinField_query_stats, sendMinField_set_stats,
      sendMaxField_query_stats, sendMaxField_set_stats,
      combine_temperature_payloads, temperature_to_hex_payload,
      combine_query_payloads, Stats.add]

/-- Witness for `counter_increment_timing`: in the mixed case with a
failing transport, both dispatched frames fail, and the error counter
reads 2 even though the per-field counters were already advanced. -/
theorem counter_increment_timing_witness :
    (processDevice (some 20) (some 25) none (some 24) (fun _ => false)).2.errors = 2 :=
  (counter_increment_timing 20 25 18 24 (by norm_num) (by norm_num) (by norm_num)
    (by norm_num)).1.2.2

set_option maxRecDepth 8000 in
lemma format02XL_byte (m : ℕ) (h : m < 256) :
    (format02XL (m : ℤ)).length = 2 ∧ (format02XL (m : ℤ)).all isHexUpper = true := by
  revert m h
  decide

/-- C5 (amended): for a temperature whose doubled truncation fits one
unsigned byte (`0 ≤ int(T * 2) ≤ 255`), the encoded setpoint is the
field prefix (`3E` for min, `40` for max) followed by exactly 2
uppercase hexadecimal digits of `int(T * 2)` — 4 characters in all —
and in particular `encodeSetpoint(20, min) = "3E28"` and
`encodeSetpoint(25, max) = "4032"`. -/
theorem encode_setpoint_shape (q : ℚ) (b : Bool)
    (h0 : 0 ≤ pyTruncTwice q) (h255 : pyTruncTwice q ≤ 255) :
    tempHexVal q b = (if b then "3E" else "40") ++ format02X (pyTruncTwice q) ∧
    (format02XL (pyTruncTwice q)).length = 2 ∧
    (format02XL (pyTruncTwice q)).all isHexUpper = true ∧
    (tempHexVal q b).length = 4 ∧
    tempHexVal 20 true = "3E28" ∧ tempHexVal 25 false = "4032" := by
  have hm : pyTruncTwice q = ((pyTruncTwice q).toNat : ℤ) := (Int.toNat_of_nonneg h0).symm
  have hlt : (pyTruncTwice q).toNat < 256 := by omega
  have hb := format02XL_byte (pyTruncTwice q).toNat hlt
  have hlen : (format02XL (pyTruncTwice q)).length = 2 := by rw [hm]; exact hb.1
  have hall : (format02XL (pyTruncTwice q)).all isHexUpper = true := by rw [hm]; exact hb.2
  refine ⟨rfl, hlen, hall, ?_, by decide, by decide⟩
  have h2 : (format02X (pyTruncTwice q)).length = 2 := hlen
  cases b <;> simp [tempHexVal, String.length_append, h2] <;> decide

/-- Witness for `encode_setpoint_shape` at T = 20, min field:
`int(20 * 2) = 40` lies in the byte range and the encoding has 4
characters. -/
theorem encode_setpoint_shape_witness : (tempHexVal 20 true).length = 4 :=
  (encode_setpoint_shape 20 true (by decide) (by decide)).2.2.2.1

/-- C5 (counterexample): the claim's "exactly 2 hex digits / 4
characters for every numeric T" fails — `format(.., '02X')` only pads
to a minimum width, so T = 128 encodes to the 5-character `3E100`, and
T = -1 to `3E-2`, which is not even hexadecimal. -/
theorem encode_setpoint_overflow :
    tempHexVal 128 true = "3E100" ∧ (tempHexVal 128 true).length ≠ 4 ∧
      tempHexVal (-1) true = "3E-2" := by
  refine ⟨by decide, by decide, by decide⟩

/-- Modelled from the claim's words for C6: strips a case-insensitive
`EUI-`/`EUI_` marker only when it is a PREFIX of the (stripped,
uppercased) input, then removes spaces, hyphens and colons and applies
the 16-hex validity check.  Used to exhibit where the source, which
deletes every occurrence of the markers, differs. -/
def normalizeClaimPrefixOnly (s : String) : Option String :=
  if s = "" then none
  else
    let l0 := upperL (pyStrip s.data)
    let l1 :=
      if ("EUI-".data).isPrefixOf l0 ∨ ("EUI_".data).isPrefixOf l0 then l0.drop 4 else l0
    let l2 := pyReplaceAll l1 [' ']
    let l3 := pyReplaceAll l2 ['-']
    let l4 := pyReplaceAll l3 [':']
    if l4.length = 16 ∧ l4.all isHexUpper then some ⟨l4⟩ else none

/-- C6 (counterexample): `normalize_deveui` deletes every occurrence
of `EUI-`, not only a leading one — on `"AAEUI-BBCCDD11223344"` the
source accepts the input while the claim's prefix-stripping reading
rejects it. -/
theorem normalize_strips_all_occurrences :
    normalize_deveui "AAEUI-BBCCDD11223344" = some "AABBCCDD11223344" ∧
      normalizeClaimPrefixOnly "AAEUI-BBCCDD11223344" = none := by
  refine ⟨by decide, by decide⟩

lemma valid_branch {r : String} (l : List Char)
    (h : (if l.length = 16 ∧ l.all isHexUpper then some (⟨l⟩ : String) else none) = some r) :
    r.length = 16 ∧ r.data.all isHexUpper = true := by
  split at h
  · rename_i hc
    cases h
    exact ⟨hc.1, hc.2⟩
  · exact Option.noConfusion h

/-- C6 (amended): `normalize_deveui` rejects empty input; every
accepted result is exactly 16 uppercase hexadecimal characters (the
uppercased input with every `EUI-`/`EUI_` occurrence and all
space/hyphen/colon characters removed); the spec's concrete examples
hold, as does the all-occurrences behaviour. -/
theorem normalize_deveui_spec :
    normalize_deveui "" = none ∧
    (∀ s r, normalize_deveui s = some r → r.length = 16 ∧ r.data.all isHexUpper = true) ∧
    normalize_deveui "EUI-aabbccdd11223344" = some "AABBCCDD11223344" ∧
    normalize_deveui "short123" = none ∧
    normalize_deveui "AAEUI-BBCCDD11223344" = some "AABBCCDD11223344" := by
  refine ⟨rfl, ?_, by decide, by decide, by decide⟩
  intro s r h
  unfold normalize_deveui normPipeline at h
  split at h
  · exact absurd h (by simp)
  · exact valid_branch _ h

/-- Witness for `normalize_deveui_spec`: the accepted example output
indeed has 16 uppercase hexadecimal characters. -/
theorem normalize_deveui_spec_witness :
    ("AABBCCDD11223344" : String).length = 16 ∧
      ("AABBCCDD11223344" : String).data.all isHexUpper = true :=
  normalize_deveui_spec.2.1 "EUI-aabbccdd11223344" "AABBCCDD11223344" (by decide)

/-- C8 (amended): with the transport endpoint configured (which `main`
guarantees before any processing), a dry-run send reports success
whatever the transport would have answered — the transport is not
consulted — and a live send reports success exactly for the status
codes 200, 201 and 202, failing on every other status and on a
transport error, with no retry. -/
theorem send_downlink_classification :
    (∀ (eui : String) (fport : ℤ) (ph : String) (resp : TransportResp),
      send_downlink_to_agility true eui fport ph true resp = true) ∧
    (∀ (eui : String) (fport : ℤ) (ph : String) (c : ℕ),
      send_downlink_to_agility true eui fport ph false (.status c) = true ↔
        c = 200 ∨ c = 201 ∨ c = 202) ∧
    (∀ (eui : String) (fport : ℤ) (ph : String),
      send_downlink_to_agility true eui fport ph false .transportError = false) := by
  refine ⟨fun _ _ _ _ => rfl, fun _ _ _ c => ?_, fun _ _ _ => rfl⟩
  simp [send_downlink_to_agility]

/-- C8 (counterexample): 204 is a 2xx status, yet the source's
explicit list `[200, 201, 202]` classifies it as a failure, against
the claim's "success exactly when the transport responds with a 2xx
status". -/
theorem send_downlink_204_fails :
    send_downlink_to_agility true "AABBCCDD11223344" 10 "BDBF" false (.status 204) = false ∧
      200 ≤ 204 ∧ 204 < 300 := by
  refine ⟨by decide, by norm_num, by norm_num⟩

/-- C9 (counterexample): `--limit 0` is falsy in Python, so the cap is
never consulted and a device is still processed, against the claim's
"at most N devices for every limit N". -/
theorem limit_zero_not_enforced :
    (runMain [⟨some 20, some 25, [⟨some "AABBCCDD11223344", none, none⟩]⟩] (some 0)
      (fun _ => true)).count = 1 ∧ ¬(1 ≤ 0) := by
  refine ⟨by decide, by decide⟩

lemma limitHit_true (n : ℤ) (c : ℕ) (h : limitHit (some n) c = true) :
    n ≠ 0 ∧ (c : ℤ) ≥ n := by
  simpa [limitHit] using h

lemma limitHit_false (n : ℤ) (c : ℕ) (hn : 1 ≤ n) (h : limitHit (some n) c = false) :
    (c : ℤ) < n := by
  simp [limitHit] at h
  exact h (by omega)

lemma runDevices_count (n : ℤ) (send : String → Bool) (amin amax : Option ℚ)
    (ds : List DevRec) :
    ∀ st : RunState, 1 ≤ n → st.count ≤ n.toNat → st.limitReached = false →
      (runDevices (some n) send amin amax st ds).count =
          min n.toNat (st.count + ds.length) ∧
        ((runDevices (some n) send amin amax st ds).limitReached = true →
          (runDevices (some n) send amin amax st ds).count = n.toNat) := by
  induction ds with
  | nil =>
    intro st hn hc hl
    constructor
    · simp [runDevices]; omega
    · intro h
      rw [runDevices] at h
      rw [hl] at h
      exact absurd h (by simp)
  | cons d rest ih =>
    intro st hn hc hl
    rw [runDevices]
    by_cases hhit : limitHit (some n) st.count = true
    · obtain ⟨-, hge⟩ := limitHit_true n st.count hhit
      rw [if_pos hhit]
      constructor
      · simp only [List.length_cons]
        omega
      · intro _
        simp only
        omega
    · rw [if_neg hhit]
      have hlt : (st.count : ℤ) < n := limitHit_false n st.count hn (by
        cases h : limitHit (some n) st.count
        · rfl
        · exact absurd h hhit)
      cases hd : d.deveui <;> simp only [hd] <;>
      · refine (?_ : ∀ st2 : RunState, st2.count = st.count + 1 → st2.limitReached = false →
            (runDevices (some n) send amin amax st2 rest).count =
                min n.toNat (st.count + (d :: rest).length) ∧
              ((runDevices (some n) send amin amax st2 rest).limitReached = true →
                (runDevices (some n) send amin amax st2 rest).count = n.toNat)) _ rfl hl
        intro st2 h2c h2l
        have h2 := ih st2 hn (by omega) h2l
        rw [h2c] at h2
        refine ⟨?_, h2.2⟩
        rw [h2.1]
        simp only [List.length_cons]
        omega

lemma runAssets_count (n : ℤ) (send : String → Bool) (assets : List AssetRec) :
    ∀ st : RunState, 1 ≤ n → st.count ≤ n.toNat →
      (st.limitReached = true → st.count = n.toNat) →
      (runAssets (some n) send st assets).count =
        min n.toNat (st.count + availableDevices assets) := by
  induction assets with
  | nil =>
    intro st hn hc hinv
    simp [runAssets, availableDevices]
    omega
  | cons a rest ih =>
    intro st hn hc hinv
    rw [runAssets]
    by_cases hlr : st.limitReached = true
    · rw [if_pos hlr]
      have hfull := hinv hlr
      omega
    · rw [if_neg hlr]
      have hlrf : st.limitReached = false := by
        cases h : st.limitReached
        · rfl
        · exact absurd h hlr
      by_cases hskip : a.minTemp = none ∧ a.maxTemp = none
      · rw [if_pos hskip]
        have hrec := ih { st with stats := st.stats.add { skipped_no_asset_temp := 1 } }
          hn hc hinv
        rw [hrec]
        simp [availableDevices, hskip]
      · rw [if_neg hskip]
        obtain ⟨h1, h2⟩ := runDevices_count n send a.minTemp a.maxTemp a.devices
          { st with stats := st.stats.add { assets_processed := 1 } } hn hc hlrf
        have hrec := ih
          (runDevices (some n) send a.minTemp a.maxTemp
            { st with stats := st.stats.add { assets_processed := 1 } } a.devices)
          hn (by rw [h1]; omega) h2
        rw [hrec, h1]
        have hav : availableDevices (a :: rest) = a.devices.length + availableDevices rest := by
          simp [availableDevices, hskip]
        rw [hav]
        have hcc :
            ({ st with stats := st.stats.add { assets_processed := 1 } } : RunState).count =
              st.count := rfl
        rw [hcc]
        omega

/-- C9 (amended): for an integer device limit N ≥ 1 the run processes
exactly `min N A` devices, where A is the number of devices under
assets carrying at least one desired setpoint — hence never more than
N, and exactly N whenever at least N devices are available. -/
theorem device_limit_cap (assets : List AssetRec) (n : ℤ) (send : String → Bool)
    (hn : 1 ≤ n) :
    (runMain assets (some n) send).count = min n.toNat (availableDevices assets) ∧
    (runMain assets (some n) send).count ≤ n.toNat ∧
    (n.toNat ≤ availableDevices assets → (runMain assets (some n) send).count = n.toNat) := by
  have h := runAssets_count n send assets ⟨0, false, {}, []⟩ hn (Nat.zero_le _)
    (fun hfalse => by simp at hfalse)
  have h2 : (runMain assets (some n) send).count =
      min n.toNat (0 + availableDevices assets) := h
  rw [Nat.zero_add] at h2
  refine ⟨h2, by rw [h2]; omega, fun hge => by rw [h2]; omega⟩

/-- Witness for `device_limit_cap`: with limit 1 and two available
devices the run processes exactly one device. -/
theorem device_limit_cap_witness :
    (runMain
      [⟨some 20, none, [⟨some "AABBCCDD11223344", none, none⟩,
        ⟨some "AABBCCDD11223345", none, none⟩]⟩]
      (some 1) (fun _ => true)).count = 1 :=
  (device_limit_cap
    [⟨some 20, none, [⟨some "AABBCCDD11223344", none, none⟩,
      ⟨some "AABBCCDD11223345", none, none⟩]⟩]
    1 (fun _ => true) (by norm_num)).2.2 (by decide)

lemma pyStrip_eq_rdrop (l : List Char) :
    pyStrip l = (l.dropWhile isPySpace).rdropWhile isPySpace := rfl

lemma pyStrip_idem (l : List Char) : pyStrip (pyStrip l) = pyStrip l := by
  rw [pyStrip_eq_rdrop, pyStrip_eq_rdrop]
  have hA : ((l.dropWhile isPySpace).rdropWhile isPySpace).dropWhile isPySpace =
      (l.dropWhile isPySpace).rdropWhile isPySpace := by
    rw [List.dropWhile_eq_self_iff]
    intro hl
    have hpre := List.rdropWhile_prefix isPySpace (l.dropWhile isPySpace)
    have hlen : 0 < (l.dropWhile isPySpace).length := lt_of_lt_of_le hl hpre.length_le
    have hget := hpre.getElem hl
    have hnot := List.dropWhile_get_zero_not isPySpace l hlen
    simpa [List.get_eq_getElem, hget] using hnot
  rw [hA, List.rdropWhile_idempotent]

lemma normPipeline_of_strip_nil (l : List Char) (h : pyStrip l = []) :
    normPipeline l = none := by
  unfold normPipeline
  rw [h]
  rfl

lemma normPipeline_strip (l : List Char) : normPipeline (pyStrip l) = normPipeline l := by
  unfold normPipeline
  rw [pyStrip_idem]

lemma strippedStr_empty_iff (s : String) : strippedStr s = "" ↔ pyStrip s.data = [] := by
  simp [strippedStr, String.ext_iff]

lemma normalize_strippedStr (s : String) :
    (if strippedStr s ≠ "" then normalize_deveui (strippedStr s) else none) =
      normalize_deveui s := by
  by_cases h : strippedStr s = ""
  · rw [if_neg (not_not_intro h)]
    unfold normalize_deveui
    split
    · rfl
    · exact (normPipeline_of_strip_nil _ ((strippedStr_empty_iff s).1 h)).symm
  · rw [if_pos h]
    unfold normalize_deveui
    rw [if_neg h]
    have hs : s ≠ "" := by
      intro he
      exact h (by rw [he]; rfl)
    rw [if_neg hs]
    exact normPipeline_strip s.data

lemma firstAttrHit_eq (l : List (String × String)) :
    firstAttrHit l = firstNormalized ((l.filter (fun kv => matchesEuiKey kv.1)).map Prod.snd) := by
  induction l with
  | nil => rfl
  | cons kv rest ih =>
    obtain ⟨k, v⟩ := kv
    by_cases hk : k.toLower = "deveui" ∨ k.toLower = "eui"
    · have hb : matchesEuiKey k = true := by
        rcases hk with h | h <;> simp [matchesEuiKey, h]
      cases hnv : normalize_deveui v <;>
        simp [firstAttrHit, hk, hb, List.filter_cons, firstNormalized, hnv, ih]
    · have hb : matchesEuiKey k = false := by
        simp only [not_or] at hk
        simp [matchesEuiKey, hk.1, hk.2]
      simp [firstAttrHit, hk, hb, List.filter_cons, ih]

lemma tryInfoKeys_eq (info : List (String × String)) (ks : List String) :
    tryInfoKeys info ks = firstNormalized (ks.filterMap (fun k => info.lookup k)) := by
  induction ks with
  | nil => rfl
  | cons k ks ih =>
    cases hlk : info.lookup k with
    | none => simp [tryInfoKeys, hlk, List.filterMap_cons, ih]
    | some v =>
      cases hnv : normalize_deveui v <;>
        simp [tryInfoKeys, hlk, List.filterMap_cons, firstNormalized, hnv, ih]

lemma firstNormalized_append (l1 l2 : List String) :
    firstNormalized (l1 ++ l2) =
      (match firstNormalized l1 with
       | some r => some r
       | none => firstNormalized l2) := by
  induction l1 with
  | nil => rfl
  | cons c rest ih =>
    cases hnc : normalize_deveui c <;> simp [firstNormalized, hnc, ih]

lemma extract_tail_eq (d : Device) :
    (match (if strippedStr d.name ≠ "" then normalize_deveui (strippedStr d.name) else none) with
      | some r => some r
      | none =>
        match (if strippedStr d.label ≠ "" then normalize_deveui (strippedStr d.label) else none) with
        | some r => some r
        | none => tryInfoKeys d.additionalInfo sixInfoKeys) =
      firstNormalized
        ([d.name, d.label] ++ sixInfoKeys.filterMap (fun k => d.additionalInfo.lookup k)) := by
  rw [normalize_strippedStr, normalize_strippedStr]
  cases hn : normalize_deveui d.name
  · cases hl : normalize_deveui d.label <;>
      simp [firstNormalized, hn, hl, tryInfoKeys_eq]
  · simp [firstNormalized, hn]

lemma extract_deveui_eq (d : Device) :
    extract_deveui d = firstNormalized (extractCandidates d) := by
  unfold extract_deveui extractCandidates
  cases hA : d.attrs with
  | none =>
    dsimp only
    simpa using extract_tail_eq d
  | some l =>
    dsimp only
    rw [List.append_assoc, firstAttrHit_eq l, firstNormalized_append]
    cases hf : firstNormalized ((l.filter (fun kv => matchesEuiKey kv.1)).map Prod.snd) with
    | none =>
      dsimp only
      simpa using extract_tail_eq d
    | some r => rfl

/-- C7 (amended): the extraction tries `normalize` on, in order, the
declared attributes whose key matches `deveui`/`eui` case-
insensitively, then the device name, then the label, then the SIX
`additionalInfo` keys `devEUI`, `devEui`, `DevEUI`, `DevEui`,
`deveui`, `eui`, returning the first success; and a failed
attribute-lookup collaborator call behaves exactly like a lookup that
returned no attributes. -/
theorem extract_deveui_order (d : Device) :
    extract_deveui d = firstNormalized (extractCandidates d) ∧
      extract_deveui { d with attrs := none } = extract_deveui { d with attrs := some [] } := by
  refine ⟨extract_deveui_eq d, ?_⟩
  rw [extract_deveui_eq, extract_deveui_eq]
  rfl

/-- Modelled from the claim's words for C7: the same extraction but
with only "four case variants of a nested additional-info map key"
(`devEUI`, `devEui`, `DevEUI`, `DevEui`) probed in step 4. -/
def fourInfoKeys : List String := ["devEUI", "devEui", "DevEUI", "DevEui"]

/-- Modelled from the claim's words for C7: extraction restricted to
the four-variant reading of the final step. -/
def extract_deveui_fourKeys (d : Device) : Option String :=
  match (match d.attrs with | some l => firstAttrHit l | none => none) with
  | some r => some r
  | none =>
    match (if strippedStr d.name ≠ "" then normalize_deveui (strippedStr d.name) else none) with
    | some r => some r
    | none =>
      match (if strippedStr d.label ≠ "" then normalize_deveui (strippedStr d.label) else none) with
      | some r => some r
      | none => tryInfoKeys d.additionalInfo fourInfoKeys

/-- C7 (counterexample): the source probes six `additionalInfo` keys,
not four — a device whose only identifier sits under the `eui` key is
resolved by the source but not by the claim's four-variant reading. -/
theorem extract_sixth_key_found :
    extract_deveui ⟨some [], "thermostat", "livingroom", [("eui", "AABBCCDD11223344")]⟩ =
        some "AABBCCDD11223344" ∧
      extract_deveui_fourKeys
          ⟨some [], "thermostat", "livingroom", [("eui", "AABBCCDD11223344")]⟩ = none := by
  refine ⟨by decide, by decide⟩

/-- C4 (counterexample): with a desired setpoint of exactly 0 the
claim fails — the first run (known min 5) sets the device to 0 with
the frame `3E00`, but the second run sees the known value 0, which the
sentinel normalization of lines 710-713 turns back into `None`, so a
min-query frame `BD` is dispatched instead of nothing. -/
theorem second_run_zero_sentinel_dispatches :
    (processDevice (some 0) (some 25) (some 5) (some 25) (fun _ => true)).1 = ["3E00"] ∧
      (processDevice (some 0) (some 25) (some 0) (some 25) (fun _ => true)).1 = ["BD"] ∧
      (["BD"] : List String) ≠ [] := by
  refine ⟨by decide, by decide, by decide⟩
